import Mathlib

/-!
Verification of the offset re-anchoring and marker-management logic of the
monaco-collab-ext library (RemoteCursorWidget, EditorContentManager,
RemoteSelection, RemoteCursorManager, RemoteSelectionManager), as a shallow
embedding in Lean 4.  JavaScript numbers appearing in the offset arithmetic
are modelled as `Int`; possibly-undefined or possibly-null JS values are
modelled by the three-state `JsOpt`.
-/

/-- Monaco's IPosition: 1-based line number and column, both JS numbers. -/
structure IPosition where
  lineNumber : Int
  column : Int
deriving DecidableEq, Repr

/-- Monaco's IContentWidgetPosition, restricted to the field the library
reads (`position`; the `preference` array is presentation-only). -/
structure IContentWidgetPosition where
  position : IPosition
deriving DecidableEq, Repr

/-- A JavaScript value of type α that may also be `undefined` or `null`.
A TS class field that is declared but never assigned is `undefined`. -/
inductive JsOpt (α : Type) where
  | undef : JsOpt α
  | null : JsOpt α
  | val : α → JsOpt α
deriving DecidableEq, Repr

/-- JS member access `v.f`: reading a property of `undefined` or `null`
throws a TypeError, modelled as the error branch. -/
def jsProp {α β : Type} (v : JsOpt α) (f : α → β) : Except String β :=
  match v with
  | JsOpt.val a => Except.ok (f a)
  | JsOpt.undef => Except.error "TypeError: cannot read property of undefined"
  | JsOpt.null => Except.error "TypeError: cannot read property of null"

/-!
The buffer model (the host editor's OffsetTranslator collaborator).
A buffer is the list of its line lengths; lines are joined by a
single-character end-of-line.  `posAt` and `offAt` are Monaco's
`getPositionAt` / `getOffsetAt` on 0-based (line, column) pairs,
including Monaco's clamping of out-of-range input.
-/

/-- Total character length of the buffer (lines joined by 1-char EOL). -/
def bufLen : List Nat → Nat
  | [] => 0
  | [l] => l
  | l :: l2 :: rest => l + 1 + bufLen (l2 :: rest)

/-- 0-based (line, column) of a character offset, clamping past-the-end
offsets to the end of the last line (Monaco `getPositionAt`). -/
def posAt : List Nat → Nat → Nat × Nat
  | [], off => (0, off)
  | [l], off => (0, min off l)
  | l :: l2 :: rest, off =>
    if off ≤ l then (0, off)
    else
      let p := posAt (l2 :: rest) (off - (l + 1))
      (p.1 + 1, p.2)

/-- Character offset of a 0-based (line, column) pair, clamping columns to
the line length and lines past the end to the end of the buffer
(Monaco `getOffsetAt` after `validatePosition`). -/
def offAt : List Nat → Nat → Nat → Nat
  | [], _, _ => 0
  | [l], ln, c => if ln = 0 then min c l else l
  | l :: l2 :: rest, ln, c =>
    if ln = 0 then min c l else (l + 1) + offAt (l2 :: rest) (ln - 1) c

/-- Monaco `getPositionAt` producing a 1-based IPosition from a Nat offset. -/
def getPositionAtN (buf : List Nat) (off : Nat) : IPosition :=
  ⟨((posAt buf off).1 + 1 : Nat), ((posAt buf off).2 + 1 : Nat)⟩

/-- Monaco `getPositionAt` on a JS number offset: negative input clamps to 0. -/
def getPositionAtI (buf : List Nat) (off : Int) : IPosition :=
  getPositionAtN buf off.toNat

/-- Monaco `getOffsetAt` of an IPosition. -/
def getOffsetAt (buf : List Nat) (p : IPosition) : Nat :=
  offAt buf (p.lineNumber - 1).toNat (p.column - 1).toNat

theorem offAt_posAt : ∀ (ls : List Nat) (off : Nat), ls ≠ [] →
    offAt ls (posAt ls off).1 (posAt ls off).2 = min off (bufLen ls)
  | [], _, h => absurd rfl h
  | [l], off, _ => by
    simp [posAt, offAt, bufLen]
  | l :: l2 :: rest, off, _ => by
    have ih := offAt_posAt (l2 :: rest) (off - (l + 1)) (by simp)
    by_cases h : off ≤ l
    · simp [posAt, offAt, bufLen, h]
      omega
    · simp [posAt, offAt, bufLen, h]
      omega

/-- Round trip at the IPosition level: converting a clamped-in-range offset
to a position and back is the identity (generalised: the composite clamps
the offset into the buffer). -/
theorem getOffsetAt_getPositionAtN (buf : List Nat) (off : Nat) (h : buf ≠ []) :
    getOffsetAt buf (getPositionAtN buf off) = min off (bufLen buf) := by
  have := offAt_posAt buf off h
  simp only [getOffsetAt, getPositionAtN]
  have h1 : ((((posAt buf off).1 + 1 : Nat) : Int) - 1).toNat = (posAt buf off).1 := by omega
  have h2 : ((((posAt buf off).2 + 1 : Nat) : Int) - 1).toNat = (posAt buf off).2 := by omega
  rw [h1, h2, this]

/-!
RemoteCursorWidget (src/ts/RemoteCursorWidget.ts).  The state keeps the
fields the offset logic reads and writes: `_position` (declared
`IContentWidgetPosition | null`, never assigned in the constructor, hence
initially `undefined`), `_offset` (initialised to -1), `_disposed`, and the
DOM node's `display` style (for hide/show).
-/

structure RemoteCursorWidgetState where
  position : JsOpt IContentWidgetPosition
  offset : Int
  disposed : Bool
  domDisplay : String
deriving DecidableEq, Repr

namespace RemoteCursorWidget

/-- The constructor's initial state: `_position` is never assigned (so it is
`undefined`, not `null`), `_offset = -1`, `_disposed = false`; the DOM
node's display style is left at its default. -/
def mkWidget : RemoteCursorWidgetState :=
  { position := JsOpt.undef, offset := -1, disposed := false, domDisplay := "" }

/-- `_updatePosition`: stores the content-widget position and recomputes
`_offset` with `getOffsetAt` on the current model. -/
def updatePosition (buf : List Nat) (w : RemoteCursorWidgetState)
    (pos : IPosition) : RemoteCursorWidgetState :=
  { w with position := JsOpt.val ⟨pos⟩,
           offset := (getOffsetAt buf pos : Nat) }

/-- `setPosition` (the tooltip side effect is presentation-only). -/
def setPosition (buf : List Nat) (w : RemoteCursorWidgetState)
    (pos : IPosition) : RemoteCursorWidgetState :=
  updatePosition buf w pos

/-- `setOffset`: converts the offset via `getPositionAt`, then `setPosition`. -/
def setOffset (buf : List Nat) (w : RemoteCursorWidgetState)
    (off : Int) : RemoteCursorWidgetState :=
  setPosition buf w (getPositionAtI buf off)

/-- `hide`: sets the DOM node's display style to "none". -/
def hide (w : RemoteCursorWidgetState) : RemoteCursorWidgetState :=
  { w with domDisplay := "none" }

/-- `show` (named `show'` here since `show` is a Lean keyword): sets the DOM
node's display style to "inherit". -/
def show' (w : RemoteCursorWidgetState) : RemoteCursorWidgetState :=
  { w with domDisplay := "inherit" }

/-- `dispose`: no-op when already disposed; otherwise marks the widget
disposed.  The boolean reports whether `_onDisposed` was invoked. -/
def dispose (w : RemoteCursorWidgetState) : RemoteCursorWidgetState × Bool :=
  if w.disposed then (w, false)
  else ({ w with disposed := true }, true)

/-- `_onInsert`.  The source guard is `this._position === null`; the field is
only ever `undefined` or an object, never `null`, so the comparison is
against `JsOpt.null` exactly as written. -/
def onInsert (buf : List Nat) (w : RemoteCursorWidgetState)
    (index : Int) (textLen : Nat) : RemoteCursorWidgetState :=
  if w.position = JsOpt.null then w
  else
    if index ≤ w.offset then
      let newOffset := w.offset + textLen
      updatePosition buf w (getPositionAtI buf newOffset)
    else w

/-- `_onReplace`. -/
def onReplace (buf : List Nat) (w : RemoteCursorWidgetState)
    (index : Int) (length : Int) (textLen : Nat) : RemoteCursorWidgetState :=
  if w.position = JsOpt.null then w
  else
    if index ≤ w.offset then
      let newOffset := (w.offset - min (w.offset - index) length) + textLen
      updatePosition buf w (getPositionAtI buf newOffset)
    else w

/-- `_onDelete`. -/
def onDelete (buf : List Nat) (w : RemoteCursorWidgetState)
    (index : Int) (length : Int) : RemoteCursorWidgetState :=
  if w.position = JsOpt.null then w
  else
    if index ≤ w.offset then
      let newOffset := w.offset - min (w.offset - index) length
      updatePosition buf w (getPositionAtI buf newOffset)
    else w

end RemoteCursorWidget

/-- Claim C1: for a cursor marker positioned at stored offset p, a local
Insert of length L at index i re-anchors the marker to p + L when i ≤ p
(an insert exactly at the marker's offset moves it right), and leaves the
stored offset at p when i > p.  The fit hypothesis (p + L within the
post-edit buffer) holds for every valid insert, since a valid insert has
i ≤ oldLen and p ≤ oldLen, and the new length is oldLen + L. -/
theorem c1_insert_reanchor (buf : List Nat) (w : RemoteCursorWidgetState)
    (i : Int) (L : Nat) (cwp : IContentWidgetPosition)
    (hbuf : buf ≠ []) (hpos : w.position = JsOpt.val cwp)
    (hp : 0 ≤ w.offset) (hfit : (w.offset + L).toNat ≤ bufLen buf) :
    (RemoteCursorWidget.onInsert buf w i L).offset =
      if i ≤ w.offset then w.offset + L else w.offset := by
  rw [RemoteCursorWidget.onInsert, hpos]
  simp only [reduceCtorEq, if_false]
  by_cases h : i ≤ w.offset
  · rw [if_pos h, if_pos h]
    show ((getOffsetAt buf (getPositionAtI buf (w.offset + L)) : Nat) : Int) = _
    rw [getPositionAtI, getOffsetAt_getPositionAtN buf _ hbuf]
    omega
  · rw [if_neg h, if_neg h]

/-- Witness for C1, at the spec's example: a marker at offset 10 in a
one-line buffer of length 20; insert of 3 characters at offset 5 moves it
to 13 (and the theorem's else branch leaves an insert at 15 at offset 10). -/
theorem c1_insert_reanchor_witness :
    (RemoteCursorWidget.onInsert [20] ⟨JsOpt.val ⟨⟨1, 11⟩⟩, 10, false, ""⟩ 5 3).offset = 13 := by
  have h := c1_insert_reanchor [20] ⟨JsOpt.val ⟨⟨1, 11⟩⟩, 10, false, ""⟩ 5 3
    ⟨⟨1, 11⟩⟩ (by simp) rfl (by decide) (by decide)
  simpa using h

/-- Claim C2: for a cursor marker positioned at stored offset p, a local
Replace at index i removing `len` characters and inserting text of length L
re-anchors the marker to (p - min (p - i) len) + L when i ≤ p and leaves it
at p when i > p; a local Delete is the same rule with L = 0, and a marker
inside the deleted span collapses to the deletion start.  The fit
hypothesis holds for every valid replace (i + len ≤ oldLen, p ≤ oldLen,
new length = oldLen - len + L). -/
theorem c2_replace_delete_reanchor (buf : List Nat) (w : RemoteCursorWidgetState)
    (i len : Int) (L : Nat) (cwp : IContentWidgetPosition)
    (hbuf : buf ≠ []) (hpos : w.position = JsOpt.val cwp)
    (hi : 0 ≤ i) (hlen : 0 ≤ len)
    (hfit : ((w.offset - min (w.offset - i) len) + L).toNat ≤ bufLen buf) :
    ((RemoteCursorWidget.onReplace buf w i len L).offset =
      if i ≤ w.offset then (w.offset - min (w.offset - i) len) + L
      else w.offset)
    ∧ (∀ (buf' : List Nat) (w' : RemoteCursorWidgetState) (i' len' : Int),
        RemoteCursorWidget.onDelete buf' w' i' len' =
          RemoteCursorWidget.onReplace buf' w' i' len' 0)
    ∧ (i ≤ w.offset → w.offset ≤ i + len →
        (RemoteCursorWidget.onReplace buf w i len L).offset = i + L) := by
  have hdel : ∀ (buf' : List Nat) (w' : RemoteCursorWidgetState) (i' len' : Int),
      RemoteCursorWidget.onDelete buf' w' i' len' =
        RemoteCursorWidget.onReplace buf' w' i' len' 0 := by
    intro buf' w' i' len'
    rw [RemoteCursorWidget.onDelete, RemoteCursorWidget.onReplace]
    simp
  have hmain : (RemoteCursorWidget.onReplace buf w i len L).offset =
      if i ≤ w.offset then (w.offset - min (w.offset - i) len) + L
      else w.offset := by
    rw [RemoteCursorWidget.onReplace, hpos]
    simp only [reduceCtorEq, if_false]
    by_cases h : i ≤ w.offset
    · rw [if_pos h, if_pos h]
      show ((getOffsetAt buf (getPositionAtI buf _) : Nat) : Int) = _
      rw [getPositionAtI, getOffsetAt_getPositionAtN buf _ hbuf]
      omega
    · rw [if_neg h, if_neg h]
  refine ⟨hmain, hdel, fun hle hinside => ?_⟩
  rw [hmain, if_pos hle]
  omega

/-- Witness for C2, at the spec's example: a marker at offset 12 in a
one-line buffer; replace at offset 10 removing 5 and inserting 2 characters
moves the marker to (12 - min(12-10, 5)) + 2 = 12, which is also the
collapse-to-start value 10 + 2 of the third conjunct. -/
theorem c2_replace_delete_reanchor_witness :
    (RemoteCursorWidget.onReplace [17] ⟨JsOpt.val ⟨⟨1, 13⟩⟩, 12, false, ""⟩ 10 5 2).offset = 12 := by
  have h := c2_replace_delete_reanchor [17] ⟨JsOpt.val ⟨⟨1, 13⟩⟩, 12, false, ""⟩ 10 5 2
    ⟨⟨1, 13⟩⟩ (by simp) rfl (by decide) (by decide) (by decide)
  simpa using h.1

/-!
EditorContentManager (the ContentBridge; source embedded in the repository
README build).  `_processChange` classifies a raw Monaco
IModelContentChange into exactly one normalized outcome or throws.
-/

/-- Monaco's IModelContentChange, restricted to the fields the library
reads: `rangeOffset`, `rangeLength` and `text`. -/
structure IModelContentChange where
  rangeOffset : Nat
  rangeLength : Nat
  text : String
deriving DecidableEq, Repr

/-- The normalized change dispatched to the onInsert/onReplace/onDelete
callbacks (the tagged-variant view of the classifier's outcome). -/
inductive NormalizedChange where
  | insert (index : Nat) (text : String)
  | replace (index : Nat) (length : Nat) (text : String)
  | delete (index : Nat) (length : Nat)
deriving DecidableEq, Repr

namespace EditorContentManager

/-- `_processChange`: the four-way classification from the source, in source
order; the all-zero case throws. -/
def processChange (change : IModelContentChange) : Except String NormalizedChange :=
  if change.text.length > 0 ∧ change.rangeLength = 0 then
    Except.ok (NormalizedChange.insert change.rangeOffset change.text)
  else if change.text.length > 0 ∧ change.rangeLength > 0 then
    Except.ok (NormalizedChange.replace change.rangeOffset change.rangeLength change.text)
  else if change.text.length = 0 ∧ change.rangeLength > 0 then
    Except.ok (NormalizedChange.delete change.rangeOffset change.rangeLength)
  else
    Except.error "Unexpected change"

end EditorContentManager

/-- Shared classification facts about `_processChange` (used by several
theorems below). -/
theorem processChange_classifies (c : IModelContentChange) :
    (0 < c.text.length ∧ c.rangeLength = 0 →
      EditorContentManager.processChange c =
        Except.ok (NormalizedChange.insert c.rangeOffset c.text))
    ∧ (0 < c.text.length ∧ 0 < c.rangeLength →
      EditorContentManager.processChange c =
        Except.ok (NormalizedChange.replace c.rangeOffset c.rangeLength c.text))
    ∧ (c.text.length = 0 ∧ 0 < c.rangeLength →
      EditorContentManager.processChange c =
        Except.ok (NormalizedChange.delete c.rangeOffset c.rangeLength))
    ∧ (c.text.length = 0 ∧ c.rangeLength = 0 →
      ∃ msg, EditorContentManager.processChange c = Except.error msg) := by
  refine ⟨fun h => ?_, fun h => ?_, fun h => ?_, fun h => ?_⟩ <;>
    rw [EditorContentManager.processChange] <;>
    split_ifs with h1 h2 h3 <;>
    first | rfl | exact ⟨_, rfl⟩ | omega

/-- Claim C5: the change classifier dispatches exactly one outcome per raw
change: onInsert when T > 0 and R = 0, onReplace when T > 0 and R > 0,
onDelete when T = 0 and R > 0, and a distinct error (not a silent drop)
when T = 0 and R = 0, where T is the inserted text length and R the
affected-range length. -/
theorem c5_classifier_dispatch (c : IModelContentChange) :
    (0 < c.text.length ∧ c.rangeLength = 0 →
      EditorContentManager.processChange c =
        Except.ok (NormalizedChange.insert c.rangeOffset c.text))
    ∧ (0 < c.text.length ∧ 0 < c.rangeLength →
      EditorContentManager.processChange c =
        Except.ok (NormalizedChange.replace c.rangeOffset c.rangeLength c.text))
    ∧ (c.text.length = 0 ∧ 0 < c.rangeLength →
      EditorContentManager.processChange c =
        Except.ok (NormalizedChange.delete c.rangeOffset c.rangeLength))
    ∧ (c.text.length = 0 ∧ c.rangeLength = 0 →
      ∃ msg, EditorContentManager.processChange c = Except.error msg) :=
  processChange_classifies c

/-- Witness for C5: a raw change with empty text and empty range is rejected
with an error (and a nonempty insertion at offset 3 classifies as Insert). -/
theorem c5_classifier_dispatch_witness :
    EditorContentManager.processChange ⟨3, 0, "ab"⟩ =
      Except.ok (NormalizedChange.insert 3 "ab")
    ∧ ∃ msg, EditorContentManager.processChange ⟨3, 0, ""⟩ = Except.error msg := by
  refine ⟨(c5_classifier_dispatch ⟨3, 0, "ab"⟩).1 (by decide), ?_⟩
  exact (c5_classifier_dispatch ⟨3, 0, ""⟩).2.2.2 (by decide)

/-!
The ContentBridge's suppression flow.  A bridge-side EditorContentManager is
modelled by its `_suppress` flag together with the log of its own
onInsert/onReplace/onDelete invocations; each RemoteCursorWidget owns a
separately subscribed EditorContentManager whose callbacks are the widget's
handlers and whose `_suppress` flag is never set (the widget never calls
insert/replace/delete on it).  `executeEdits` notifies every subscriber of
the model-content change synchronously.
-/

structure EditorContentManagerState where
  suppress : Bool
  emitted : List NormalizedChange
deriving DecidableEq, Repr

namespace EditorContentManager

/-- The forEach body of `_onContentChanged` for the bridge: classify each
change in order and invoke (log) the corresponding callback; a classifier
error propagates. -/
def processChanges (m : EditorContentManagerState) :
    List IModelContentChange → Except String EditorContentManagerState
  | [] => Except.ok m
  | c :: rest =>
    match processChange c with
    | Except.error e => Except.error e
    | Except.ok nc => processChanges { m with emitted := m.emitted ++ [nc] } rest

/-- `_onContentChanged` for the bridge: suppressed notifications are dropped
without classifying. -/
def onContentChanged (m : EditorContentManagerState)
    (changes : List IModelContentChange) : Except String EditorContentManagerState :=
  if m.suppress then Except.ok m else processChanges m changes

end EditorContentManager

namespace RemoteCursorWidget

/-- Routing of a normalized change to the widget's handler, as wired in the
widget's constructor options (onInsert / onReplace / onDelete). -/
def applyChange (buf : List Nat) (w : RemoteCursorWidgetState) :
    NormalizedChange → RemoteCursorWidgetState
  | NormalizedChange.insert i t => onInsert buf w i t.length
  | NormalizedChange.replace i len t => onReplace buf w i len t.length
  | NormalizedChange.delete i len => onDelete buf w i len

/-- `_onContentChanged` of the widget's own EditorContentManager: its
`_suppress` flag is the first argument (always false in the library, since
the widget never issues programmatic edits through its own manager). -/
def onContentChanged (buf : List Nat) (suppress : Bool)
    (w : RemoteCursorWidgetState) :
    List IModelContentChange → Except String RemoteCursorWidgetState
  | changes =>
    if suppress then Except.ok w
    else
      changes.rec (motive := fun _ => RemoteCursorWidgetState → Except String RemoteCursorWidgetState)
        (fun wst => Except.ok wst)
        (fun c _ ih wst =>
          match EditorContentManager.processChange c with
          | Except.error e => Except.error e
          | Except.ok nc => ih (applyChange buf wst nc)) w

end RemoteCursorWidget

/-- The editor together with its subscribers: the bridge-side
EditorContentManager and every live cursor widget (each holding its own
manager, whose suppress flag is permanently false). -/
structure EditorSystem where
  buffer : List Nat
  bridge : EditorContentManagerState
  widgets : List RemoteCursorWidgetState
deriving DecidableEq, Repr

/-- Synchronous dispatch of `onDidChangeModelContent` to every subscriber
(the widget managers are notified in subscription order). -/
def notifyWidgets (buf : List Nat) (changes : List IModelContentChange) :
    List RemoteCursorWidgetState → Except String (List RemoteCursorWidgetState)
  | [] => Except.ok []
  | w :: rest =>
    match RemoteCursorWidget.onContentChanged buf false w changes with
    | Except.error e => Except.error e
    | Except.ok w' =>
      match notifyWidgets buf changes rest with
      | Except.error e => Except.error e
      | Except.ok rest' => Except.ok (w' :: rest')

/-- `executeEdits`: the host editor mutates the buffer (to `newBuf`,
computed by the host) and synchronously notifies every subscriber of the
change event. -/
def executeEditsDispatch (sys : EditorSystem) (newBuf : List Nat)
    (changes : List IModelContentChange) : Except String EditorSystem :=
  match EditorContentManager.onContentChanged sys.bridge changes with
  | Except.error e => Except.error e
  | Except.ok b =>
    match notifyWidgets newBuf changes sys.widgets with
    | Except.error e => Except.error e
    | Except.ok ws => Except.ok { buffer := newBuf, bridge := b, widgets := ws }

namespace EditorContentManager

/-- The bridge's `insert`: sets `_suppress`, applies the edit through
`executeEdits` (the host produces the one raw change for it), clears
`_suppress`. -/
def insertOp (sys : EditorSystem) (index : Nat) (text : String)
    (newBuf : List Nat) : Except String EditorSystem :=
  let sys1 : EditorSystem := { sys with bridge := { sys.bridge with suppress := true } }
  match executeEditsDispatch sys1 newBuf [⟨index, 0, text⟩] with
  | Except.error e => Except.error e
  | Except.ok sys2 => Except.ok { sys2 with bridge := { sys2.bridge with suppress := false } }

/-- The bridge's `replace`. -/
def replaceOp (sys : EditorSystem) (index length : Nat) (text : String)
    (newBuf : List Nat) : Except String EditorSystem :=
  let sys1 : EditorSystem := { sys with bridge := { sys.bridge with suppress := true } }
  match executeEditsDispatch sys1 newBuf [⟨index, length, text⟩] with
  | Except.error e => Except.error e
  | Except.ok sys2 => Except.ok { sys2 with bridge := { sys2.bridge with suppress := false } }

/-- The bridge's `delete` (applies an empty-text edit over the range). -/
def deleteOp (sys : EditorSystem) (index length : Nat)
    (newBuf : List Nat) : Except String EditorSystem :=
  let sys1 : EditorSystem := { sys with bridge := { sys.bridge with suppress := true } }
  match executeEditsDispatch sys1 newBuf [⟨index, length, ""⟩] with
  | Except.error e => Except.error e
  | Except.ok sys2 => Except.ok { sys2 with bridge := { sys2.bridge with suppress := false } }

end EditorContentManager

theorem notifyWidgets_single_ok (buf : List Nat) (c : IModelContentChange)
    (nc : NormalizedChange) (h : EditorContentManager.processChange c = Except.ok nc) :
    ∀ ws : List RemoteCursorWidgetState,
      notifyWidgets buf [c] ws =
        Except.ok (ws.map (fun w => RemoteCursorWidget.applyChange buf w nc))
  | [] => rfl
  | w :: rest => by
    have ih := notifyWidgets_single_ok buf c nc h rest
    simp only [notifyWidgets, RemoteCursorWidget.onContentChanged, if_neg Bool.false_ne_true, h,
      ih, List.map]

/-- Claim C3: a programmatic insert/replace/delete issued through the bridge
never invokes that same bridge's own onInsert/onReplace/onDelete callbacks
(its invocation log is unchanged and its suppress flag is back to false),
while every cursor widget — whose own separately subscribed manager is not
suppressed — receives the buffer-level change and re-anchors via its
corresponding handler. -/
theorem c3_bridge_suppression (sys : EditorSystem) (newBuf : List Nat) :
    (∀ (i : Nat) (t : String), t ≠ "" →
      EditorContentManager.insertOp sys i t newBuf =
        Except.ok { buffer := newBuf,
                    bridge := { sys.bridge with suppress := false },
                    widgets := sys.widgets.map
                      (fun w => RemoteCursorWidget.applyChange newBuf w
                        (NormalizedChange.insert i t)) })
    ∧ (∀ (i len : Nat) (t : String), t ≠ "" → 0 < len →
      EditorContentManager.replaceOp sys i len t newBuf =
        Except.ok { buffer := newBuf,
                    bridge := { sys.bridge with suppress := false },
                    widgets := sys.widgets.map
                      (fun w => RemoteCursorWidget.applyChange newBuf w
                        (NormalizedChange.replace i len t)) })
    ∧ (∀ (i len : Nat), 0 < len →
      EditorContentManager.deleteOp sys i len newBuf =
        Except.ok { buffer := newBuf,
                    bridge := { sys.bridge with suppress := false },
                    widgets := sys.widgets.map
                      (fun w => RemoteCursorWidget.applyChange newBuf w
                        (NormalizedChange.delete i len)) }) := by
  have ht : ∀ t : String, t ≠ "" → 0 < t.length := by
    intro t h
    rcases t with ⟨data⟩
    cases data with
    | nil => exact absurd rfl h
    | cons a as => simp [String.length]
  have hdisp : ∀ (sys1 : EditorSystem) (c : IModelContentChange) (nc : NormalizedChange),
      sys1.bridge.suppress = true →
      EditorContentManager.processChange c = Except.ok nc →
      executeEditsDispatch sys1 newBuf [c] =
        Except.ok { buffer := newBuf, bridge := sys1.bridge,
                    widgets := sys1.widgets.map
                      (fun w => RemoteCursorWidget.applyChange newBuf w nc) } := by
    intro sys1 c nc hs hc
    rw [executeEditsDispatch, EditorContentManager.onContentChanged, if_pos hs,
      notifyWidgets_single_ok newBuf c nc hc]
  refine ⟨fun i t htne => ?_, fun i len t htne hlen => ?_, fun i len hlen => ?_⟩
  · have hc : EditorContentManager.processChange ⟨i, 0, t⟩ =
        Except.ok (NormalizedChange.insert i t) :=
      (processChange_classifies ⟨i, 0, t⟩).1 ⟨ht t htne, rfl⟩
    rw [EditorContentManager.insertOp, hdisp _ _ _ rfl hc]
  · have hc : EditorContentManager.processChange ⟨i, len, t⟩ =
        Except.ok (NormalizedChange.replace i len t) :=
      (processChange_classifies ⟨i, len, t⟩).2.1 ⟨ht t htne, hlen⟩
    rw [EditorContentManager.replaceOp, hdisp _ _ _ rfl hc]
  · have hc : EditorContentManager.processChange ⟨i, len, ""⟩ =
        Except.ok (NormalizedChange.delete i len) :=
      (processChange_classifies ⟨i, len, ""⟩).2.2.1 ⟨rfl, hlen⟩
    rw [EditorContentManager.deleteOp, hdisp _ _ _ rfl hc]

/-- Witness for C3: a bridge-issued insert of "xy" at offset 0 into a
one-widget system leaves the bridge's callback log empty and re-anchors the
widget from offset 4 to 6. -/
theorem c3_bridge_suppression_witness :
    EditorContentManager.insertOp
      { buffer := [9], bridge := { suppress := false, emitted := [] },
        widgets := [⟨JsOpt.val ⟨⟨1, 5⟩⟩, 4, false, ""⟩] } 0 "xy" [11] =
      Except.ok
        { buffer := [11], bridge := { suppress := false, emitted := [] },
          widgets := [⟨JsOpt.val ⟨⟨1, 7⟩⟩, 6, false, ""⟩] } := by
  have h := (c3_bridge_suppression
    { buffer := [9], bridge := { suppress := false, emitted := [] },
      widgets := [⟨JsOpt.val ⟨⟨1, 5⟩⟩, 4, false, ""⟩] } [11]).1 0 "xy" (by decide)
  rw [h]
  rfl

/-!
Claim C4 setup: a valid change trajectory.  Each step carries the
normalized change together with the buffer the host editor produced for it
(whose total length is determined by the change), and the widget is
re-anchored through its handlers exactly as dispatched by its own
EditorContentManager.
-/

/-- Buffer length after a normalized change applied to a buffer of length
`len`. -/
def changeNewLen (len : Nat) : NormalizedChange → Nat
  | NormalizedChange.insert _ t => len + t.length
  | NormalizedChange.replace _ r t => len - r + t.length
  | NormalizedChange.delete _ r => len - r

/-- Validity of a normalized change against a buffer of length `len`:
the affected range lies inside the buffer. -/
def changeOk (len : Nat) : NormalizedChange → Prop
  | NormalizedChange.insert i _ => i ≤ len
  | NormalizedChange.replace i r _ => i + r ≤ len
  | NormalizedChange.delete i r => i + r ≤ len

/-- A valid trajectory from a buffer of length `len`: every change is valid
for the current length and every post-edit buffer is a nonempty line list
of the mutated total length. -/
def trajOk (len : Nat) : List (NormalizedChange × List Nat) → Prop
  | [] => True
  | (c, b) :: rest =>
    changeOk len c ∧ b ≠ [] ∧ bufLen b = changeNewLen len c ∧
      trajOk (changeNewLen len c) rest

/-- The widget after observing every change of the trajectory in order. -/
def runTraj (w : RemoteCursorWidgetState) :
    List (NormalizedChange × List Nat) → RemoteCursorWidgetState
  | [] => w
  | (c, b) :: rest => runTraj (RemoteCursorWidget.applyChange b w c) rest

/-- Buffer length at the end of the trajectory. -/
def trajLen (len : Nat) : List (NormalizedChange × List Nat) → Nat
  | [] => len
  | (c, _) :: rest => trajLen (changeNewLen len c) rest

theorem applyChange_step (b : List Nat) (w : RemoteCursorWidgetState)
    (c : NormalizedChange) (len : Nat) (cwp : IContentWidgetPosition)
    (hpos : w.position = JsOpt.val cwp)
    (hp0 : 0 ≤ w.offset) (hple : w.offset.toNat ≤ len)
    (hc : changeOk len c) (hb : b ≠ []) (hlen : bufLen b = changeNewLen len c) :
    (∃ cwp', (RemoteCursorWidget.applyChange b w c).position = JsOpt.val cwp')
    ∧ 0 ≤ (RemoteCursorWidget.applyChange b w c).offset
    ∧ (RemoteCursorWidget.applyChange b w c).offset.toNat ≤ changeNewLen len c := by
  have hupd : ∀ off : Int,
      (∃ cwp', (RemoteCursorWidget.updatePosition b w (getPositionAtI b off)).position
        = JsOpt.val cwp')
      ∧ 0 ≤ (RemoteCursorWidget.updatePosition b w (getPositionAtI b off)).offset
      ∧ (RemoteCursorWidget.updatePosition b w (getPositionAtI b off)).offset.toNat
          ≤ changeNewLen len c := by
    intro off
    refine ⟨⟨_, rfl⟩, ?_, ?_⟩
    · show (0 : Int) ≤ ((getOffsetAt b (getPositionAtI b off) : Nat) : Int)
      omega
    · show ((getOffsetAt b (getPositionAtI b off) : Nat) : Int).toNat ≤ _
      rw [getPositionAtI, getOffsetAt_getPositionAtN b _ hb]
      omega
  cases c with
  | insert i t =>
    rw [RemoteCursorWidget.applyChange, RemoteCursorWidget.onInsert, hpos]
    simp only [reduceCtorEq, if_false]
    by_cases h : (i : Int) ≤ w.offset
    · rw [if_pos h]
      exact hupd _
    · rw [if_neg h]
      refine ⟨⟨cwp, hpos⟩, hp0, ?_⟩
      simp only [changeOk] at hc
      simp only [changeNewLen]
      omega
  | replace i r t =>
    rw [RemoteCursorWidget.applyChange, RemoteCursorWidget.onReplace, hpos]
    simp only [reduceCtorEq, if_false]
    by_cases h : (i : Int) ≤ w.offset
    · rw [if_pos h]
      exact hupd _
    · rw [if_neg h]
      refine ⟨⟨cwp, hpos⟩, hp0, ?_⟩
      simp only [changeOk] at hc
      simp only [changeNewLen]
      omega
  | delete i r =>
    rw [RemoteCursorWidget.applyChange, RemoteCursorWidget.onDelete, hpos]
    simp only [reduceCtorEq, if_false]
    by_cases h : (i : Int) ≤ w.offset
    · rw [if_pos h]
      exact hupd _
    · rw [if_neg h]
      refine ⟨⟨cwp, hpos⟩, hp0, ?_⟩
      simp only [changeOk] at hc
      simp only [changeNewLen]
      omega

/-- Claim C4: a marker positioned at an offset within the buffer keeps a
stored offset p' with 0 ≤ p' ≤ currentLength() across every valid sequence
of Insert/Replace/Delete changes. -/
theorem c4_offset_invariant : ∀ (tr : List (NormalizedChange × List Nat))
    (len : Nat) (w : RemoteCursorWidgetState) (cwp : IContentWidgetPosition),
    w.position = JsOpt.val cwp →
    0 ≤ w.offset → w.offset.toNat ≤ len →
    trajOk len tr →
    0 ≤ (runTraj w tr).offset ∧ (runTraj w tr).offset.toNat ≤ trajLen len tr
  | [], len, w, cwp, hpos, hp0, hple, _ => ⟨hp0, hple⟩
  | (c, b) :: rest, len, w, cwp, hpos, hp0, hple, htr => by
    obtain ⟨hc, hb, hlen, hrest⟩ := htr
    obtain ⟨⟨cwp', hpos'⟩, h0', hle'⟩ :=
      applyChange_step b w c len cwp hpos hp0 hple hc hb hlen
    exact c4_offset_invariant rest (changeNewLen len c)
      (RemoteCursorWidget.applyChange b w c) cwp' hpos' h0' hle' hrest

/-- Witness for C4: a marker at offset 10 of a 20-character one-line buffer
stays in range across an insert of 3 at 5, a delete of 8 at 9 (which covers
the marker), and a replace at 0 of 2 by 6; the final offset is 15 with
final length 19. -/
theorem c4_offset_invariant_witness :
    0 ≤ (runTraj ⟨JsOpt.val ⟨⟨1, 11⟩⟩, 10, false, ""⟩
        [(NormalizedChange.insert 5 "abc", [23]),
         (NormalizedChange.delete 9 8, [15]),
         (NormalizedChange.replace 0 2 "abcdef", [19])]).offset
    ∧ (runTraj ⟨JsOpt.val ⟨⟨1, 11⟩⟩, 10, false, ""⟩
        [(NormalizedChange.insert 5 "abc", [23]),
         (NormalizedChange.delete 9 8, [15]),
         (NormalizedChange.replace 0 2 "abcdef", [19])]).offset.toNat ≤ 19 :=
  c4_offset_invariant
    [(NormalizedChange.insert 5 "abc", [23]),
     (NormalizedChange.delete 9 8, [15]),
     (NormalizedChange.replace 0 2 "abcdef", [19])]
    20 ⟨JsOpt.val ⟨⟨1, 11⟩⟩, 10, false, ""⟩ ⟨⟨1, 11⟩⟩ rfl (by decide) (by decide)
    (by simp only [trajOk, changeOk, changeNewLen, bufLen]; decide)

/-!
RemoteSelection (src/ts/RemoteSelection.ts).  `_startPosition` and
`_endPosition` are declared but not assigned in the constructor (hence
initially `undefined`); `_decorations` starts empty; `_disposed` is never
initialised (undefined, falsy).  Rendering state is reduced to whether any
decoration is currently applied.
-/

structure RemoteSelectionState where
  startPosition : JsOpt IPosition
  endPosition : JsOpt IPosition
  decorations : Bool
  disposed : Bool
deriving DecidableEq, Repr

/-- Buffer order on positions: line number first, then column. -/
def posLe (a b : IPosition) : Prop :=
  a.lineNumber < b.lineNumber ∨ (a.lineNumber = b.lineNumber ∧ a.column ≤ b.column)

instance (a b : IPosition) : Decidable (posLe a b) := by
  unfold posLe
  infer_instance

namespace RemoteSelection

/-- The constructor's observable state. -/
def mkSelection : RemoteSelectionState :=
  { startPosition := JsOpt.undef, endPosition := JsOpt.undef,
    decorations := false, disposed := false }

/-- `_swapIfNeeded`: returns the pair ordered by buffer order, swapping only
when the given start is strictly after the given end. -/
def swapIfNeeded (start : IPosition) (e : IPosition) : IPosition × IPosition :=
  if start.lineNumber < e.lineNumber ∨
      (start.lineNumber = e.lineNumber ∧ start.column ≤ e.column) then
    (start, e)
  else
    (e, start)

/-- `_render`: applies the selection decoration over the stored range. -/
def render (s : RemoteSelectionState) : RemoteSelectionState :=
  { s with decorations := true }

/-- `setPositions`: orders the pair with `_swapIfNeeded`, stores it, and
re-renders. -/
def setPositions (s : RemoteSelectionState) (start e : IPosition) :
    RemoteSelectionState :=
  let ordered := swapIfNeeded start e
  render { s with startPosition := JsOpt.val ordered.1,
                  endPosition := JsOpt.val ordered.2 }

/-- `setOffsets`: converts both offsets with the model's `getPositionAt`,
then `setPositions`. -/
def setOffsets (buf : List Nat) (s : RemoteSelectionState) (start e : Int) :
    RemoteSelectionState :=
  setPositions s (getPositionAtI buf start) (getPositionAtI buf e)

/-- `show`: re-renders the decoration. -/
def show' (s : RemoteSelectionState) : RemoteSelectionState :=
  render s

/-- `hide`: clears the decorations. -/
def hide (s : RemoteSelectionState) : RemoteSelectionState :=
  { s with decorations := false }

/-- `dispose`: when not yet disposed, removes the style element, hides, sets
`_disposed`, and fires `_onDisposed` (reported by the boolean). -/
def dispose (s : RemoteSelectionState) : RemoteSelectionState × Bool :=
  if s.disposed then (s, false)
  else ({ s with decorations := false, disposed := true }, true)

end RemoteSelection

theorem posLe_total (a b : IPosition) : posLe a b ∨ posLe b a := by
  unfold posLe
  omega

theorem posLe_antisymm {a b : IPosition} (h1 : posLe a b) (h2 : posLe b a) :
    a = b := by
  unfold posLe at h1 h2
  rcases a with ⟨al, ac⟩
  rcases b with ⟨bl, bc⟩
  simp only at h1 h2
  have : al = bl ∧ ac = bc := by omega
  rw [this.1, this.2]

/-- `getPositionAt` is monotone from offset order to buffer order. -/
theorem posAt_mono : ∀ (ls : List Nat) (a b : Nat), a ≤ b →
    (posAt ls a).1 < (posAt ls b).1 ∨
      ((posAt ls a).1 = (posAt ls b).1 ∧ (posAt ls a).2 ≤ (posAt ls b).2)
  | [], a, b, h => by simp [posAt]; omega
  | [l], a, b, h => by simp [posAt]; omega
  | l :: l2 :: rest, a, b, h => by
    by_cases ha : a ≤ l
    · by_cases hb : b ≤ l
      · simp [posAt, ha, hb]
        omega
      · simp [posAt, ha, hb]
    · have hb : ¬ b ≤ l := by omega
      have ih := posAt_mono (l2 :: rest) (a - (l + 1)) (b - (l + 1)) (by omega)
      simp [posAt, ha, hb]
      omega

theorem getPositionAtN_mono (buf : List Nat) (a b : Nat) (h : a ≤ b) :
    posLe (getPositionAtN buf a) (getPositionAtN buf b) := by
  have h2 := posAt_mono buf a b h
  unfold posLe getPositionAtN
  dsimp only
  omega

/-- Claim C6: `setPositions` always stores a pair ordered by buffer order
(line number, then column): a reversed input pair is swapped, otherwise the
pair is stored as given; and `setOffsets` with offsets given in either
order stores the positions of (min, max) of the two offsets — in
particular offsets (50, 40) are stored as the positions of 40 and 50. -/
theorem c6_selection_ordered (s : RemoteSelectionState) :
    (∀ start e : IPosition,
      ((RemoteSelection.setPositions s start e).startPosition =
          JsOpt.val (RemoteSelection.swapIfNeeded start e).1
        ∧ (RemoteSelection.setPositions s start e).endPosition =
          JsOpt.val (RemoteSelection.swapIfNeeded start e).2)
      ∧ posLe (RemoteSelection.swapIfNeeded start e).1
          (RemoteSelection.swapIfNeeded start e).2
      ∧ (posLe start e → RemoteSelection.swapIfNeeded start e = (start, e))
      ∧ (¬ posLe start e → RemoteSelection.swapIfNeeded start e = (e, start)))
    ∧ (∀ (buf : List Nat) (a b : Nat),
      (RemoteSelection.setOffsets buf s a b).startPosition =
          JsOpt.val (getPositionAtN buf (min a b))
        ∧ (RemoteSelection.setOffsets buf s a b).endPosition =
          JsOpt.val (getPositionAtN buf (max a b))) := by
  have hswap : ∀ start e : IPosition,
      (posLe start e → RemoteSelection.swapIfNeeded start e = (start, e))
      ∧ (¬ posLe start e → RemoteSelection.swapIfNeeded start e = (e, start)) := by
    intro start e
    constructor
    · intro h
      show (if posLe start e then (start, e) else (e, start)) = (start, e)
      rw [if_pos h]
    · intro h
      show (if posLe start e then (start, e) else (e, start)) = (e, start)
      rw [if_neg h]
  constructor
  · intro start e
    refine ⟨⟨rfl, rfl⟩, ?_, (hswap start e).1, (hswap start e).2⟩
    by_cases h : posLe start e
    · rw [(hswap start e).1 h]
      exact h
    · rw [(hswap start e).2 h]
      rcases posLe_total start e with h' | h'
      · exact absurd h' h
      · exact h'
  · intro buf a b
    have htoa : ((a : Int)).toNat = a := Int.toNat_natCast a
    have htob : ((b : Int)).toNat = b := Int.toNat_natCast b
    rcases le_total a b with hab | hba
    · have hmono := getPositionAtN_mono buf a b hab
      rw [RemoteSelection.setOffsets, getPositionAtI, getPositionAtI, htoa, htob]
      have := (hswap (getPositionAtN buf a) (getPositionAtN buf b)).1 hmono
      rw [RemoteSelection.setPositions, this]
      constructor
      · show JsOpt.val (getPositionAtN buf a) = JsOpt.val (getPositionAtN buf (min a b))
        rw [min_eq_left hab]
      · show JsOpt.val (getPositionAtN buf b) = JsOpt.val (getPositionAtN buf (max a b))
        rw [max_eq_right hab]
    · have hmono := getPositionAtN_mono buf b a hba
      rw [RemoteSelection.setOffsets, getPositionAtI, getPositionAtI, htoa, htob]
      by_cases heq : posLe (getPositionAtN buf a) (getPositionAtN buf b)
      · have hpe : getPositionAtN buf a = getPositionAtN buf b :=
          posLe_antisymm heq hmono
        have := (hswap (getPositionAtN buf a) (getPositionAtN buf b)).1 heq
        rw [RemoteSelection.setPositions, this]
        constructor
        · show JsOpt.val (getPositionAtN buf a) = JsOpt.val (getPositionAtN buf (min a b))
          rcases le_total a b with h' | h'
          · rw [min_eq_left h']
          · rw [min_eq_right h', hpe]
        · show JsOpt.val (getPositionAtN buf b) = JsOpt.val (getPositionAtN buf (max a b))
          rcases le_total a b with h' | h'
          · rw [max_eq_right h']
          · rw [max_eq_left h', hpe]
      · have := (hswap (getPositionAtN buf a) (getPositionAtN buf b)).2 heq
        rw [RemoteSelection.setPositions, this]
        constructor
        · show JsOpt.val (getPositionAtN buf b) = JsOpt.val (getPositionAtN buf (min a b))
          rw [min_eq_right hba]
        · show JsOpt.val (getPositionAtN buf a) = JsOpt.val (getPositionAtN buf (max a b))
          rw [max_eq_left hba]

/-- Witness for C6, at the spec's example: on a 100-character one-line
buffer, `setOffsets(50, 40)` stores start = position of offset 40 and
end = position of offset 50 (columns 41 and 51). -/
theorem c6_selection_ordered_witness :
    (RemoteSelection.setOffsets [100] RemoteSelection.mkSelection 50 40).startPosition =
      JsOpt.val ⟨1, 41⟩
    ∧ (RemoteSelection.setOffsets [100] RemoteSelection.mkSelection 50 40).endPosition =
      JsOpt.val ⟨1, 51⟩ := by
  have h := (c6_selection_ordered RemoteSelection.mkSelection).2 [100] 50 40
  refine ⟨?_, ?_⟩
  · show (RemoteSelection.setOffsets [100] RemoteSelection.mkSelection
      ((50 : Nat) : Int) ((40 : Nat) : Int)).startPosition = JsOpt.val ⟨1, 41⟩
    rw [h.1]
    rfl
  · show (RemoteSelection.setOffsets [100] RemoteSelection.mkSelection
      ((50 : Nat) : Int) ((40 : Nat) : Int)).endPosition = JsOpt.val ⟨1, 51⟩
    rw [h.2]
    rfl

/-!
Marker registries.  A JS `Map` keyed by selection/cursor id is modelled as
an association list with unique keys; `rset` replaces the value stored at a
key (or appends), `rdel` removes the entry, `rfind?` looks it up.  Because
JS objects are aliased by reference, disposing a marker mutates the object
the registry holds; in the pure model the registry is updated in place at
the marker's key.
-/

def rfind? {α : Type} : List (String × α) → String → Option α
  | [], _ => none
  | (k, v) :: rest, id => if k = id then some v else rfind? rest id

def rset {α : Type} : List (String × α) → String → α → List (String × α)
  | [], id, a => [(id, a)]
  | (k, v) :: rest, id, a =>
    if k = id then (k, a) :: rest else (k, v) :: rset rest id a

def rdel {α : Type} : List (String × α) → String → List (String × α)
  | [], _ => []
  | (k, v) :: rest, id => if k = id then rest else (k, v) :: rdel rest id

theorem rfind?_rset {α : Type} : ∀ (reg : List (String × α)) (id : String) (a : α),
    rfind? (rset reg id a) id = some a
  | [], id, a => by simp [rset, rfind?]
  | (k, v) :: rest, id, a => by
    by_cases h : k = id
    · simp [rset, rfind?, h]
    · simp [rset, rfind?, h, rfind?_rset rest id a]

theorem rdel_rset {α : Type} : ∀ (reg : List (String × α)) (id : String) (a : α),
    rdel (rset reg id a) id = rdel reg id
  | [], id, a => by simp [rset, rdel]
  | (k, v) :: rest, id, a => by
    by_cases h : k = id
    · simp [rset, rdel, h]
    · simp [rset, rdel, h, rdel_rset rest id a]

theorem rdel_not_mem {α : Type} : ∀ (reg : List (String × α)) (id : String),
    id ∉ reg.map Prod.fst → rdel reg id = reg
  | [], id, _ => rfl
  | (k, v) :: rest, id, h => by
    have hk : ¬ k = id := by
      intro hk
      exact h (by simp [hk])
    have hrest : id ∉ rest.map Prod.fst := by
      intro hm
      exact h (by simp [hm])
    simp [rdel, hk, rdel_not_mem rest id hrest]

/-- With unique keys (a JS Map), deleting a key twice equals deleting once. -/
theorem rdel_rdel {α : Type} : ∀ (reg : List (String × α)) (id : String),
    (reg.map Prod.fst).Nodup → rdel (rdel reg id) id = rdel reg id
  | [], id, _ => rfl
  | (k, v) :: rest, id, h => by
    simp only [List.map, List.nodup_cons] at h
    by_cases hk : k = id
    · simp only [rdel, if_pos hk]
      exact rdel_not_mem rest id (hk ▸ h.1)
    · simp only [rdel, if_neg hk]
      rw [rdel_rdel rest id h.2]

namespace RemoteCursorManager

/-- `removeCursor`, with explicit fuel for the re-entrant `_onDisposed`
callback: looking up the widget throws for an unknown id; a live widget is
disposed (the registry's aliased object is marked disposed), the widget's
`_onDisposed` re-enters `removeCursor`, and finally the entry is deleted.
The second component of the result is the final state of the widget object
that external handles still reference.  Fuel 2 covers the single re-entrant
level (the re-entrant call always finds the widget already disposed). -/
def removeCursorFuel : Nat → List (String × RemoteCursorWidgetState) → String →
    Except String (List (String × RemoteCursorWidgetState) × Option RemoteCursorWidgetState)
  | 0, reg, _ => Except.ok (reg, none)
  | fuel + 1, reg, id =>
    match rfind? reg id with
    | none => Except.error ("No such cursor: " ++ id)
    | some w =>
      if w.disposed then Except.ok (rdel reg id, some w)
      else
        let w' := { w with disposed := true }
        match removeCursorFuel fuel (rset reg id w') id with
        | Except.error e => Except.error e
        | Except.ok (reg2, _) => Except.ok (rdel reg2 id, some w')

/-- `removeCursor` (the nesting depth of `_onDisposed` is at most one). -/
def removeCursor (reg : List (String × RemoteCursorWidgetState)) (id : String) :
    Except String (List (String × RemoteCursorWidgetState) × Option RemoteCursorWidgetState) :=
  removeCursorFuel 2 reg id

end RemoteCursorManager

namespace RemoteSelectionManager

/-- `removeSelection`, with the same fuel treatment: looking up the
selection throws for an unknown id; a live selection is disposed (which
hides it, marks it disposed and re-enters `removeSelection` through
`_onDisposed`); a selection that is already disposed is left alone.  No
branch deletes the registry entry. -/
def removeSelectionFuel : Nat → List (String × RemoteSelectionState) → String →
    Except String (List (String × RemoteSelectionState))
  | 0, reg, _ => Except.ok reg
  | fuel + 1, reg, id =>
    match rfind? reg id with
    | none => Except.error ("No such selection: " ++ id)
    | some s =>
      if s.disposed then Except.ok reg
      else
        let s' := { s with decorations := false, disposed := true }
        removeSelectionFuel fuel (rset reg id s') id

/-- `removeSelection` (the nesting depth of `_onDisposed` is at most one). -/
def removeSelection (reg : List (String × RemoteSelectionState)) (id : String) :
    Except String (List (String × RemoteSelectionState)) :=
  removeSelectionFuel 2 reg id

end RemoteSelectionManager

/-- Counterexample to claim C7: on the selection registry, `removeSelection`
disposes the marker but does NOT delete the registry entry — after removing
the only selection "a", the registry still contains an entry for "a"
(holding the disposed selection). -/
theorem c7_remove_counterexample :
    RemoteSelectionManager.removeSelection [("a", RemoteSelection.mkSelection)] "a" =
      Except.ok [("a", { startPosition := JsOpt.undef, endPosition := JsOpt.undef,
                         decorations := false, disposed := true })]
    ∧ (rfind? [("a", ({ startPosition := JsOpt.undef, endPosition := JsOpt.undef,
                        decorations := false, disposed := true } : RemoteSelectionState))]
        "a").isSome = true := by
  constructor
  · rfl
  · rfl

/-- Claim C7 as amended: `removeCursor` on a present id disposes the widget
and deletes its registry entry (whether or not the widget was already
disposed); `removeSelection` on a present live selection disposes it but
keeps the registry entry (now holding the disposed selection); and
`removeSelection` on a present already-disposed selection is a no-op, not
an error. -/
theorem c7_remove_amended :
    (∀ (reg : List (String × RemoteCursorWidgetState)) (id : String)
        (w : RemoteCursorWidgetState), (reg.map Prod.fst).Nodup →
      rfind? reg id = some w →
      RemoteCursorManager.removeCursor reg id =
        Except.ok (rdel reg id, some { w with disposed := true }))
    ∧ (∀ (reg : List (String × RemoteSelectionState)) (id : String)
        (s : RemoteSelectionState), rfind? reg id = some s → s.disposed = false →
      RemoteSelectionManager.removeSelection reg id =
        Except.ok (rset reg id { s with decorations := false, disposed := true }))
    ∧ (∀ (reg : List (String × RemoteSelectionState)) (id : String)
        (s : RemoteSelectionState), rfind? reg id = some s → s.disposed = true →
      RemoteSelectionManager.removeSelection reg id = Except.ok reg) := by
  refine ⟨fun reg id w hnodup hw => ?_, fun reg id s hs hnd => ?_, fun reg id s hs hd => ?_⟩
  · by_cases hd : w.disposed
    · have hww : ({ w with disposed := true } : RemoteCursorWidgetState) = w := by
        rcases w with ⟨p, o, d, dom⟩
        simp only at hd
        rw [hd]
      simp only [RemoteCursorManager.removeCursor, RemoteCursorManager.removeCursorFuel,
        hw, hd, if_true, hww]
    · simp only [Bool.not_eq_true] at hd
      simp only [RemoteCursorManager.removeCursor, RemoteCursorManager.removeCursorFuel,
        hw, hd, Bool.false_eq_true, if_false, rfind?_rset, if_true, rdel_rset]
      rw [rdel_rdel reg id hnodup]
  · simp only [RemoteSelectionManager.removeSelection,
      RemoteSelectionManager.removeSelectionFuel, hs, hnd, Bool.false_eq_true, if_false,
      rfind?_rset, if_true]
  · simp only [RemoteSelectionManager.removeSelection,
      RemoteSelectionManager.removeSelectionFuel, hs, hd, if_true]

/-- Witness for the amended C7: removing cursor "c" from a one-entry cursor
registry empties the registry and yields the disposed widget object;
removing selection "a" twice from a one-entry selection registry keeps the
(now disposed) entry and the second removal is a no-op. -/
theorem c7_remove_amended_witness :
    RemoteCursorManager.removeCursor [("c", RemoteCursorWidget.mkWidget)] "c" =
      Except.ok ([], some { RemoteCursorWidget.mkWidget with disposed := true })
    ∧ RemoteSelectionManager.removeSelection
        [("a", { RemoteSelection.mkSelection with disposed := true })] "a" =
      Except.ok [("a", { RemoteSelection.mkSelection with disposed := true })] := by
  constructor
  · have h := c7_remove_amended.1 [("c", RemoteCursorWidget.mkWidget)] "c"
      RemoteCursorWidget.mkWidget (by simp) (by rfl)
    rw [h]
    rfl
  · have h := c7_remove_amended.2.2 [("a", { RemoteSelection.mkSelection with disposed := true })]
      "a" { RemoteSelection.mkSelection with disposed := true } (by rfl) rfl
    rw [h]

/-!
RemoteCursorManager.addCursor (src/ts/RemoteCursorManager.ts).  `id` and
`color` pass `Validation.assertString` (typed `String` here); the optional
`label` may be absent (`undefined`).  The source's tooltip guard is

  `if (this._options.tooltips && typeof "label" !== "string")`

which applies `typeof` to the string literal "label", not to the `label`
parameter; the embedding keeps that literal.
-/

/-- JS `typeof` on a possibly-undefined string value
(`typeof null` is "object"). -/
def jsTypeofStr : JsOpt String → String
  | JsOpt.val _ => "string"
  | JsOpt.undef => "undefined"
  | JsOpt.null => "object"

structure RemoteCursorManagerState where
  tooltips : Bool
  tooltipDuration : Int
  nextWidgetId : Nat
  cursorWidgets : List (String × RemoteCursorWidgetState)
deriving DecidableEq, Repr

namespace RemoteCursorManager

/-- `addCursor`: the tooltip guard tests `typeof "label"` (the literal), so
it can never throw; then a fresh widget is created and registered. -/
def addCursor (m : RemoteCursorManagerState) (id color : String)
    (label : JsOpt String) :
    Except String (RemoteCursorManagerState × RemoteCursorWidgetState) :=
  if m.tooltips ∧ jsTypeofStr (JsOpt.val "label") ≠ "string" then
    Except.error "label is required when tooltips are enabled."
  else
    let w := RemoteCursorWidget.mkWidget
    Except.ok
      ({ m with
          nextWidgetId := m.nextWidgetId + 1,
          cursorWidgets := rset m.cursorWidgets id w }, w)

end RemoteCursorManager

/-- Claim C8 evaluated on the code (the claim itself is violated): with
tooltips enabled and NO label supplied, `addCursor` succeeds — the guard
`typeof "label" !== "string"` tests the string literal "label" and is
always false, so the configuration error is dead code.  The first conjunct
evaluates the failing input from the spec's contract; the second shows no
input whatsoever reaches the error. -/
theorem c8_addcursor_label_guard_dead :
    RemoteCursorManager.addCursor
      { tooltips := true, tooltipDuration := 1, nextWidgetId := 0, cursorWidgets := [] }
      "jDoe" "blue" JsOpt.undef =
      Except.ok ({ tooltips := true, tooltipDuration := 1, nextWidgetId := 1,
                   cursorWidgets := [("jDoe", RemoteCursorWidget.mkWidget)] },
                 RemoteCursorWidget.mkWidget)
    ∧ (∀ (m : RemoteCursorManagerState) (id color : String) (label : JsOpt String),
        ∃ r, RemoteCursorManager.addCursor m id color label = Except.ok r) := by
  constructor
  · rfl
  · intro m id color label
    have hguard : ¬ (m.tooltips ∧ jsTypeofStr (JsOpt.val "label") ≠ "string") := by
      intro hcond
      exact hcond.2 rfl
    exact ⟨_, by rw [RemoteCursorManager.addCursor, if_neg hguard]⟩

/-- Counterexample to claim C9: operations on an already-disposed marker do
not fail — `show` on a disposed cursor widget performs its normal DOM
update and returns (and `show` on a disposed selection re-renders its
decoration), instead of raising an error. -/
theorem c9_disposed_ops_counterexample :
    RemoteCursorWidget.show' { RemoteCursorWidget.mkWidget with disposed := true } =
      { position := JsOpt.undef, offset := -1, disposed := true, domDisplay := "inherit" }
    ∧ RemoteSelection.show' { RemoteSelection.mkSelection with disposed := true } =
      { startPosition := JsOpt.undef, endPosition := JsOpt.undef,
        decorations := true, disposed := true } := by
  constructor
  · rfl
  · rfl

/-- Claim C9 as amended: a second `dispose()` on a cursor widget or a
selection is a no-op (and does not re-fire `_onDisposed`), but the other
operations (`show`, `hide`, `setPosition`/`setOffset`, `setPositions`)
never consult the disposed flag: on a disposed marker they execute exactly
their normal state change instead of failing with an error. -/
theorem c9_dispose_idempotent_ops_ignore_disposed
    (w : RemoteCursorWidgetState) (s : RemoteSelectionState)
    (buf : List Nat) (p q : IPosition) :
    RemoteCursorWidget.dispose (RemoteCursorWidget.dispose w).1 =
      ((RemoteCursorWidget.dispose w).1, false)
    ∧ RemoteSelection.dispose (RemoteSelection.dispose s).1 =
      ((RemoteSelection.dispose s).1, false)
    ∧ RemoteCursorWidget.show' { w with disposed := true } =
      { RemoteCursorWidget.show' w with disposed := true }
    ∧ RemoteCursorWidget.hide { w with disposed := true } =
      { RemoteCursorWidget.hide w with disposed := true }
    ∧ RemoteCursorWidget.setPosition buf { w with disposed := true } p =
      { RemoteCursorWidget.setPosition buf w p with disposed := true }
    ∧ RemoteSelection.show' { s with disposed := true } =
      { RemoteSelection.show' s with disposed := true }
    ∧ RemoteSelection.hide { s with disposed := true } =
      { RemoteSelection.hide s with disposed := true }
    ∧ RemoteSelection.setPositions { s with disposed := true } p q =
      { RemoteSelection.setPositions s p q with disposed := true } := by
  refine ⟨?_, ?_, rfl, rfl, rfl, rfl, rfl, rfl⟩
  · by_cases h : w.disposed
    · have h1 : (RemoteCursorWidget.dispose w).1 = w := by
        rw [RemoteCursorWidget.dispose, if_pos h]
      rw [h1, RemoteCursorWidget.dispose, if_pos h]
    · have h1 : (RemoteCursorWidget.dispose w).1 = { w with disposed := true } := by
        rw [RemoteCursorWidget.dispose, if_neg h]
      rw [h1, RemoteCursorWidget.dispose]
      simp
  · by_cases h : s.disposed
    · have h1 : (RemoteSelection.dispose s).1 = s := by
        rw [RemoteSelection.dispose, if_pos h]
      rw [h1, RemoteSelection.dispose, if_pos h]
    · have h1 : (RemoteSelection.dispose s).1 =
          { s with decorations := false, disposed := true } := by
        rw [RemoteSelection.dispose, if_neg h]
      rw [h1, RemoteSelection.dispose]
      simp

/-!
RemoteCursor (src/ts/RemoteCursor.ts): the userland handle delegating to
the widget.  `getPosition()` returns
`this._delegate.getPosition().position`; the delegate's `getPosition`
returns `_position`, which is `undefined` until the first
`setPosition`/`setOffset`.
-/

namespace RemoteCursor

/-- `RemoteCursorWidget.getPosition` returns the raw `_position` field. -/
def widgetGetPosition (w : RemoteCursorWidgetState) : JsOpt IContentWidgetPosition :=
  w.position

/-- `RemoteCursor.getPosition`: dereferences `.position` on the delegate's
(possibly undefined) content-widget position. -/
def getPosition (w : RemoteCursorWidgetState) : Except String IPosition :=
  jsProp (widgetGetPosition w) (fun cwp => cwp.position)

end RemoteCursor

/-- Claim C10: on a cursor that has never been positioned, `getPosition()`
fails by dereferencing the absent (`undefined`) stored position — it
produces a TypeError, not a position or a defined "unset" value; once the
cursor has been positioned (the stored position is an object), it returns
that position. -/
theorem c10_getposition_unset_crashes :
    RemoteCursor.getPosition RemoteCursorWidget.mkWidget =
      Except.error "TypeError: cannot read property of undefined"
    ∧ (∀ (w : RemoteCursorWidgetState) (cwp : IContentWidgetPosition),
        w.position = JsOpt.val cwp →
        RemoteCursor.getPosition w = Except.ok cwp.position) := by
  constructor
  · rfl
  · intro w cwp h
    rw [RemoteCursor.getPosition, RemoteCursor.widgetGetPosition, h]
    rfl

/-- Witness for C10's positioned case: after `setPosition` to (1, 5) on a
one-line buffer, `getPosition` returns it. -/
theorem c10_getposition_unset_crashes_witness :
    RemoteCursor.getPosition
      (RemoteCursorWidget.setPosition [9] RemoteCursorWidget.mkWidget ⟨1, 5⟩) =
      Except.ok ⟨1, 5⟩ :=
  c10_getposition_unset_crashes.2
    (RemoteCursorWidget.setPosition [9] RemoteCursorWidget.mkWidget ⟨1, 5⟩) ⟨⟨1, 5⟩⟩ rfl
